import Mathlib

/-!
Verification of the stability-sdk client orchestration layer
(`src/stability_sdk/api.py`): the request orchestrator / retry engine
(`Context._run_request`, `Context._adjust_request_for_retry`) and the
multi-backend project/asset storage aggregate (`Project`,
`AssetServiceBackend`, `LocalFileBackend`, metadata index).

The embedding is shallow: Python objects become Lean structures, the
mutable retry loop becomes structural recursion over the attempt list
`range(max_retries + 1)`, the gRPC transport becomes a function from
(attempt, request) to an outcome, raised exceptions become `Except`
errors, and the process-wide metadata index plus its on-disk JSON file
become an explicit `MetaState` (in-memory index and persisted copy).
-/

/-! ## Request data model (generation_pb2 messages, as used by api.py) -/

/-- Realized action of a classifier result (`generation.Action`); only
`ACTION_OBFUSCATE` is inspected by the orchestrator. -/
inductive ClassifierAction where
  | passthrough
  | obfuscate
  | other
deriving DecidableEq, Repr, BEq

/-- The classifier result carried by a `ClassifierException`
(`generation.ClassifierParameters`): the realized action plus the
exceeded-threshold names which api.py only logs. -/
structure ClassifierParameters where
  realized_action : ClassifierAction
  exceeds : List String
deriving DecidableEq, Repr, BEq

/-- The decoded artifact mapping produced by `Context._process_response`:
the `ARTIFACT_CLASSIFICATIONS` entries (an empty list meaning the key is
absent) and the remaining kind-to-payload entries, opaque to the retry
loop. -/
structure DecodedResults where
  classifications : List ClassifierParameters
  artifacts : List (Nat × List String)
deriving DecidableEq, Repr, BEq

/-- First obfuscating classifier in the decoded results, mirroring the
loop in `Context._run_request` that raises `ClassifierException` for the
first classifier whose `realized_action == ACTION_OBFUSCATE`. -/
def DecodedResults.obfuscation? (r : DecodedResults) : Option ClassifierParameters :=
  r.classifications.find? (fun c => c.realized_action == ClassifierAction.obfuscate)

/-- `generation.ScheduleParameters` as used by api.py (only `start` is
read or written). -/
structure ScheduleParameters where
  start : Option ℚ
deriving DecidableEq, Repr

/-- `generation.SamplerParameters` as built by `_build_image_params`. -/
structure SamplerParameters where
  cfg_scale : ℚ
  init_noise_scale : ℚ
deriving DecidableEq, Repr

/-- `generation.StepParameter` as built by `_build_image_params`. -/
structure StepParameter where
  scaled_step : Nat
  sampler : SamplerParameters
  schedule : Option ScheduleParameters
deriving DecidableEq, Repr

/-- `generation.ImageParameters`: the fields api.py constructs and the
retry loop reads (`seed`, `parameters`) or leaves untouched. -/
structure ImageParameters where
  height : Nat
  width : Nat
  seed : List Nat
  steps : Nat
  samples : Nat
  parameters : List StepParameter
deriving DecidableEq, Repr

/-- A prompt entry: either weighted text or an embedded artifact payload
(kept opaque). -/
structure Prompt where
  text : Option String
  weight : Option ℚ
  artifact : Option String
deriving DecidableEq, Repr

/-- `generation.Request` restricted to the fields the orchestrator
touches; `image = none` models `HasField("image") == False`. -/
structure GenRequest where
  engine_id : String
  prompt : List Prompt
  image : Option ImageParameters
deriving DecidableEq, Repr

/-- One stage of a `generation.ChainRequest`; the on-status transitions
are irrelevant to the retry loop and omitted. -/
structure Stage where
  id : String
  request : GenRequest
deriving DecidableEq, Repr

/-- A request submitted to `Context._run_request`: either a single
`generation.Request` or a `generation.ChainRequest`. -/
inductive ReqOrChain where
  | single (request : GenRequest)
  | chain (request_id : String) (stage : List Stage)
deriving DecidableEq, Repr

/-! ## Retry configuration and transport model -/

/-- The retry-relevant `Context` configuration fields set in
`Context.__init__`. -/
structure Config where
  max_retries : Nat
  retry_delay : ℚ
  retry_obfuscation : Bool
  retry_schedule_offset : ℚ
deriving DecidableEq, Repr

/-- The defaults from `Context.__init__`: 5 retries, 1.0s base delay,
obfuscation retry off, 0.1 schedule offset. -/
def defaultConfig : Config :=
  { max_retries := 5
    retry_delay := 1
    retry_obfuscation := false
    retry_schedule_offset := 1/10 }

/-- gRPC status codes distinguished by the retry loop. -/
inductive GrpcStatus where
  | resourceExhausted
  | unavailable
  | internal
  | unknown
deriving DecidableEq, Repr

/-- Outcome of one transport call (`stub.Generate` / `stub.ChainGenerate`
followed by `_process_response`): decoded results, or a raised
`grpc.RpcError` with its status code and details. -/
inductive CallOutcome where
  | ok (results : DecodedResults)
  | rpcError (status : GrpcStatus) (details : String)
deriving DecidableEq, Repr

/-- The terminal failures `Context._run_request` can raise.
`loopExhausted` marks the impossible fall-through past the attempt loop. -/
inductive RunError where
  | classifier (result : ClassifierParameters)
  | outOfCredits (details : String)
  | rpc (status : GrpcStatus) (details : String)
  | loopExhausted
deriving DecidableEq, Repr

deriving instance DecidableEq for Except

/-- Observable outcome of `Context._run_request`: the returned results or
raised error, the sequence of `time.sleep` durations, and the request
value submitted on each transport call. -/
structure RunResult where
  outcome : Except RunError DecodedResults
  sleeps : List ℚ
  calls : List ReqOrChain
deriving DecidableEq, Repr

/-! ## Context._adjust_request_for_retry and Context._run_request -/

/-- `Context._adjust_request_for_retry`: increment every seed; when
`attempt > 0` and the first step parameter has a schedule with a present
`start`, clamp `start + retry_schedule_offset` to `[0, 1]`. -/
def adjust_request_for_retry (cfg : Config) (request : GenRequest) (attempt : Nat) : GenRequest :=
  match request.image with
  | none => request
  | some img =>
    let img1 : ImageParameters := { img with seed := img.seed.map (fun s => s + 1) }
    let img2 : ImageParameters :=
      if attempt > 0 then
        match img1.parameters with
        | [] => img1
        | p0 :: rest =>
          match p0.schedule with
          | none => img1
          | some sch =>
            match sch.start with
            | none => img1
            | some st =>
              let sch2 : ScheduleParameters :=
                { sch with start := some (max 0 (min 1 (st + cfg.retry_schedule_offset))) }
              let p0' : StepParameter := { p0 with schedule := some sch2 }
              { img1 with parameters := p0' :: rest }
      else img1
    { request with image := some img2 }

/-- The chain branch of the `ClassifierException` handler in
`Context._run_request`: adjust every stage whose embedded request has
image parameters, leaving the other stages as they are. -/
def adjust_stages_for_retry (cfg : Config) (stages : List Stage) (attempt : Nat) : List Stage :=
  stages.map (fun st =>
    if st.request.image.isSome then
      { st with request := adjust_request_for_retry cfg st.request attempt }
    else st)

/-- The body of `Context._run_request`, recursing over the remaining
attempt indices of `range(max_retries + 1)` and threading the (mutable in
Python) request value. -/
def run_request_go (cfg : Config) (transport : Nat → ReqOrChain → CallOutcome) :
    List Nat → ReqOrChain → RunResult
  | [], _ => ⟨Except.error RunError.loopExhausted, [], []⟩
  | attempt :: rest, request =>
    match transport attempt request with
    | CallOutcome.rpcError status details =>
      if status = GrpcStatus.resourceExhausted then
        ⟨Except.error (RunError.outOfCredits details), [], [request]⟩
      else if attempt = cfg.max_retries then
        ⟨Except.error (RunError.rpc status details), [], [request]⟩
      else
        let r := run_request_go cfg transport rest request
        ⟨r.outcome, cfg.retry_delay * 2 ^ attempt :: r.sleeps, request :: r.calls⟩
    | CallOutcome.ok results =>
      match results.obfuscation? with
      | none => ⟨Except.ok results, [], [request]⟩
      | some ce =>
        if attempt = cfg.max_retries ∨ cfg.retry_obfuscation = false then
          ⟨Except.error (RunError.classifier ce), [], [request]⟩
        else
          match request with
          | ReqOrChain.single r =>
            if r.image.isSome then
              let res := run_request_go cfg transport rest
                (ReqOrChain.single (adjust_request_for_retry cfg r attempt))
              ⟨res.outcome, res.sleeps, ReqOrChain.single r :: res.calls⟩
            else
              ⟨Except.error (RunError.classifier ce), [], [ReqOrChain.single r]⟩
          | ReqOrChain.chain rid stages =>
            let res := run_request_go cfg transport rest
              (ReqOrChain.chain rid (adjust_stages_for_retry cfg stages attempt))
            ⟨res.outcome, res.sleeps, ReqOrChain.chain rid stages :: res.calls⟩

/-- `Context._run_request`: run the attempt loop
`for attempt in range(self._max_retries + 1)`. -/
def run_request (cfg : Config) (transport : Nat → ReqOrChain → CallOutcome)
    (request : ReqOrChain) : RunResult :=
  run_request_go cfg transport (List.range (cfg.max_retries + 1)) request

/-! ## Single-step unfolding lemmas for the attempt loop -/

lemma run_go_quota_step (cfg : Config) (transport : Nat → ReqOrChain → CallOutcome)
    (attempt : Nat) (rest : List Nat) (req : ReqOrChain) (d : String)
    (hcall : transport attempt req = CallOutcome.rpcError GrpcStatus.resourceExhausted d) :
    run_request_go cfg transport (attempt :: rest) req =
      ⟨Except.error (RunError.outOfCredits d), [], [req]⟩ := by
  simp [run_request_go, hcall]

lemma run_go_final_error (cfg : Config) (transport : Nat → ReqOrChain → CallOutcome)
    (rest : List Nat) (req : ReqOrChain) (s : GrpcStatus) (d : String)
    (hcall : transport cfg.max_retries req = CallOutcome.rpcError s d)
    (hs : s ≠ GrpcStatus.resourceExhausted) :
    run_request_go cfg transport (cfg.max_retries :: rest) req =
      ⟨Except.error (RunError.rpc s d), [], [req]⟩ := by
  simp only [run_request_go, hcall]
  rw [if_neg hs]
  simp

lemma run_go_retry_step (cfg : Config) (transport : Nat → ReqOrChain → CallOutcome)
    (attempt : Nat) (rest : List Nat) (req : ReqOrChain) (s : GrpcStatus) (d : String)
    (hcall : transport attempt req = CallOutcome.rpcError s d)
    (hs : s ≠ GrpcStatus.resourceExhausted)
    (hne : ¬(attempt = cfg.max_retries)) :
    run_request_go cfg transport (attempt :: rest) req =
      ⟨(run_request_go cfg transport rest req).outcome,
       cfg.retry_delay * 2 ^ attempt :: (run_request_go cfg transport rest req).sleeps,
       req :: (run_request_go cfg transport rest req).calls⟩ := by
  simp only [run_request_go, hcall]
  rw [if_neg hs, if_neg hne]

/-! ## C1: retry bound for persistent transport failures -/

lemma run_go_const_error (cfg : Config) (transport : Nat → ReqOrChain → CallOutcome)
    (s : GrpcStatus) (d : String)
    (hs : s ≠ GrpcStatus.resourceExhausted)
    (h : ∀ a r, transport a r = CallOutcome.rpcError s d) (req : ReqOrChain) :
    ∀ n a, a + n = cfg.max_retries →
      run_request_go cfg transport (List.range' a (n + 1)) req =
        ⟨Except.error (RunError.rpc s d),
         (List.range' a n).map (fun i => cfg.retry_delay * 2 ^ i),
         List.replicate (n + 1) req⟩ := by
  intro n
  induction n with
  | zero =>
    intro a ha
    simp only [Nat.add_zero] at ha
    rw [List.range'_one, ha]
    rw [run_go_final_error cfg transport [] req s d (h cfg.max_retries req) hs]
    simp
  | succ k ih =>
    intro a ha
    have hne : ¬(a = cfg.max_retries) := by omega
    have hrec := ih (a + 1) (by omega)
    rw [List.range'_succ]
    rw [run_go_retry_step cfg transport a (List.range' (a + 1) (k + 1)) req s d
      (h a req) hs hne]
    rw [hrec]
    simp [List.range'_succ, List.replicate_succ]

lemma geom_sleep_sum (d : ℚ) :
    ∀ n : Nat, ((List.range n).map (fun i => d * 2 ^ i)).sum = d * (2 ^ n - 1) := by
  intro n
  induction n with
  | zero => simp
  | succ k ih =>
    rw [List.range_succ, List.map_append, List.sum_append]
    simp only [List.map_cons, List.map_nil, List.sum_cons, List.sum_nil, ih]
    ring

/-- C1: if the transport fails with the same non-resource-exhaustion error
on every attempt, `Context._run_request` makes exactly
`max_retries + 1` transport calls with the request unchanged (that is,
`max_retries` retries), sleeps `retry_delay * 2 ^ attempt` before each
retry (so in total `retry_delay * (2^0 + ... + 2^(max_retries - 1)) =
retry_delay * (2^max_retries - 1)`), and re-raises the underlying
transport error unchanged after the final failure. -/
theorem retry_bound_exact (cfg : Config) (transport : Nat → ReqOrChain → CallOutcome)
    (req : ReqOrChain) (s : GrpcStatus) (d : String)
    (hs : s ≠ GrpcStatus.resourceExhausted)
    (h : ∀ a r, transport a r = CallOutcome.rpcError s d) :
    run_request cfg transport req =
      ⟨Except.error (RunError.rpc s d),
       (List.range cfg.max_retries).map (fun i => cfg.retry_delay * 2 ^ i),
       List.replicate (cfg.max_retries + 1) req⟩ ∧
    ((List.range cfg.max_retries).map (fun i => cfg.retry_delay * 2 ^ i)).sum =
      cfg.retry_delay * (2 ^ cfg.max_retries - 1) := by
  constructor
  · rw [run_request]
    simp only [List.range_eq_range']
    exact run_go_const_error cfg transport s d hs h req cfg.max_retries 0 (by omega)
  · exact geom_sleep_sum cfg.retry_delay cfg.max_retries

def c1Transport : Nat → ReqOrChain → CallOutcome := fun _ _ =>
  CallOutcome.rpcError GrpcStatus.unavailable "connection reset"

def c1Request : ReqOrChain :=
  ReqOrChain.single { engine_id := "stable-diffusion-v1-5", prompt := [], image := none }

/-- Witness for `retry_bound_exact` at the default configuration
(5 retries, base delay 1). -/
theorem retry_bound_exact_witness :
    GrpcStatus.unavailable ≠ GrpcStatus.resourceExhausted ∧
    (run_request defaultConfig c1Transport c1Request =
      ⟨Except.error (RunError.rpc GrpcStatus.unavailable "connection reset"),
       (List.range defaultConfig.max_retries).map (fun i => defaultConfig.retry_delay * 2 ^ i),
       List.replicate (defaultConfig.max_retries + 1) c1Request⟩ ∧
     ((List.range defaultConfig.max_retries).map
         (fun i => defaultConfig.retry_delay * 2 ^ i)).sum =
       defaultConfig.retry_delay * (2 ^ defaultConfig.max_retries - 1)) :=
  ⟨by decide,
   retry_bound_exact defaultConfig c1Transport c1Request GrpcStatus.unavailable
     "connection reset" (by decide) (fun _ _ => rfl)⟩

/-! ## C2: resource-exhaustion short-circuit -/

lemma run_go_quota (cfg : Config) (transport : Nat → ReqOrChain → CallOutcome)
    (req : ReqOrChain) (d : String) :
    ∀ n a L, n < L → a + n ≤ cfg.max_retries →
      (∀ j, j < n → ∃ s dj, s ≠ GrpcStatus.resourceExhausted ∧
        transport (a + j) req = CallOutcome.rpcError s dj) →
      transport (a + n) req = CallOutcome.rpcError GrpcStatus.resourceExhausted d →
      run_request_go cfg transport (List.range' a L) req =
        ⟨Except.error (RunError.outOfCredits d),
         (List.range' a n).map (fun i => cfg.retry_delay * 2 ^ i),
         List.replicate (n + 1) req⟩ := by
  intro n
  induction n with
  | zero =>
    intro a L hL hle hpre hre
    obtain ⟨L2, rfl⟩ : ∃ L2, L = L2 + 1 := ⟨L - 1, by omega⟩
    rw [List.range'_succ]
    rw [run_go_quota_step cfg transport a (List.range' (a + 1) L2) req d
      (by simpa using hre)]
    simp
  | succ k ih =>
    intro a L hL hle hpre hre
    obtain ⟨L2, rfl⟩ : ∃ L2, L = L2 + 1 := ⟨L - 1, by omega⟩
    obtain ⟨s, dj, hsne, hcall⟩ := hpre 0 (by omega)
    have hane : ¬(a = cfg.max_retries) := by omega
    rw [List.range'_succ]
    rw [run_go_retry_step cfg transport a (List.range' (a + 1) L2) req s dj
      (by simpa using hcall) hsne hane]
    rw [ih (a + 1) L2 (by omega) (by omega)
      (fun j hj => by
        obtain ⟨s2, dj2, h1, h2⟩ := hpre (j + 1) (by omega)
        refine ⟨s2, dj2, h1, ?_⟩
        rw [show a + 1 + j = a + (j + 1) by omega]
        exact h2)
      (by rw [show a + 1 + k = a + (k + 1) by omega]; exact hre)]
    simp [List.range'_succ, List.replicate_succ]

/-- C2: a transport failure whose status code is RESOURCE_EXHAUSTED makes
`Context._run_request` raise `OutOfCreditsException` with the remote
detail string immediately, on whatever attempt it occurs (after any run
of earlier, retried, non-exhaustion failures): no further transport call
is made and no backoff sleep follows it, regardless of `max_retries`. -/
theorem quota_short_circuit (cfg : Config) (transport : Nat → ReqOrChain → CallOutcome)
    (req : ReqOrChain) (d : String) (k : Nat)
    (hk : k ≤ cfg.max_retries)
    (hpre : ∀ j, j < k → ∃ s dj, s ≠ GrpcStatus.resourceExhausted ∧
      transport j req = CallOutcome.rpcError s dj)
    (hre : transport k req = CallOutcome.rpcError GrpcStatus.resourceExhausted d) :
    run_request cfg transport req =
      ⟨Except.error (RunError.outOfCredits d),
       (List.range k).map (fun i => cfg.retry_delay * 2 ^ i),
       List.replicate (k + 1) req⟩ := by
  rw [run_request]
  simp only [List.range_eq_range']
  exact run_go_quota cfg transport req d k 0 (cfg.max_retries + 1) (by omega) (by omega)
    (fun j hj => by simpa using hpre j hj) (by simpa using hre)

def c2Transport : Nat → ReqOrChain → CallOutcome := fun a _ =>
  if a < 2 then CallOutcome.rpcError GrpcStatus.unavailable "server busy"
  else CallOutcome.rpcError GrpcStatus.resourceExhausted "insufficient credits"

def c2Request : ReqOrChain :=
  ReqOrChain.single { engine_id := "asset-service", prompt := [], image := none }

/-- Witness for `quota_short_circuit`: two retried failures, then
resource exhaustion on attempt 2 of the default 5-retry config. -/
theorem quota_short_circuit_witness :
    2 ≤ defaultConfig.max_retries ∧
    run_request defaultConfig c2Transport c2Request =
      ⟨Except.error (RunError.outOfCredits "insufficient credits"),
       (List.range 2).map (fun i => defaultConfig.retry_delay * 2 ^ i),
       List.replicate 3 c2Request⟩ :=
  ⟨by decide,
   quota_short_circuit defaultConfig c2Transport c2Request "insufficient credits" 2
     (by decide)
     (fun j hj => ⟨GrpcStatus.unavailable, "server busy", by decide, by
        simp [c2Transport, hj]⟩)
     rfl⟩

/-! ## Obfuscation branch step lemmas -/

lemma run_go_obf_terminal (cfg : Config) (transport : Nat → ReqOrChain → CallOutcome)
    (attempt : Nat) (rest : List Nat) (req : ReqOrChain)
    (results : DecodedResults) (ce : ClassifierParameters)
    (hcall : transport attempt req = CallOutcome.ok results)
    (hobf : results.obfuscation? = some ce)
    (hterm : attempt = cfg.max_retries ∨ cfg.retry_obfuscation = false) :
    run_request_go cfg transport (attempt :: rest) req =
      ⟨Except.error (RunError.classifier ce), [], [req]⟩ := by
  simp only [run_request_go, hcall, hobf]
  rw [if_pos hterm]

lemma run_go_obf_single_no_image (cfg : Config) (transport : Nat → ReqOrChain → CallOutcome)
    (attempt : Nat) (rest : List Nat) (r : GenRequest)
    (results : DecodedResults) (ce : ClassifierParameters)
    (hcall : transport attempt (ReqOrChain.single r) = CallOutcome.ok results)
    (hobf : results.obfuscation? = some ce)
    (himg : r.image = none) :
    run_request_go cfg transport (attempt :: rest) (ReqOrChain.single r) =
      ⟨Except.error (RunError.classifier ce), [], [ReqOrChain.single r]⟩ := by
  by_cases hterm : attempt = cfg.max_retries ∨ cfg.retry_obfuscation = false
  · exact run_go_obf_terminal cfg transport attempt rest _ results ce hcall hobf hterm
  · simp only [run_request_go, hcall, hobf]
    rw [if_neg hterm]
    simp [himg]

lemma run_go_obf_chain_step (cfg : Config) (transport : Nat → ReqOrChain → CallOutcome)
    (attempt : Nat) (rest : List Nat) (rid : String) (stages : List Stage)
    (results : DecodedResults) (ce : ClassifierParameters)
    (hcall : transport attempt (ReqOrChain.chain rid stages) = CallOutcome.ok results)
    (hobf : results.obfuscation? = some ce)
    (hnterm : ¬(attempt = cfg.max_retries ∨ cfg.retry_obfuscation = false)) :
    run_request_go cfg transport (attempt :: rest) (ReqOrChain.chain rid stages) =
      ⟨(run_request_go cfg transport rest
          (ReqOrChain.chain rid (adjust_stages_for_retry cfg stages attempt))).outcome,
       (run_request_go cfg transport rest
          (ReqOrChain.chain rid (adjust_stages_for_retry cfg stages attempt))).sleeps,
       ReqOrChain.chain rid stages ::
         (run_request_go cfg transport rest
            (ReqOrChain.chain rid (adjust_stages_for_retry cfg stages attempt))).calls⟩ := by
  simp only [run_request_go, hcall, hobf]
  rw [if_neg hnterm]

/-! ## C4: obfuscation on a request with no image parameters -/

lemma chain_no_image_stages_fixed (cfg : Config) (stages : List Stage) (attempt : Nat)
    (h : ∀ st ∈ stages, st.request.image = none) :
    adjust_stages_for_retry cfg stages attempt = stages := by
  induction stages with
  | nil => rfl
  | cons st sts ih =>
    have h1 : st.request.image = none := h st (by simp)
    have h2 : ∀ s2 ∈ sts, s2.request.image = none := fun s2 hs => h s2 (by simp [hs])
    have hfix : (if st.request.image.isSome then
        { st with request := adjust_request_for_retry cfg st.request attempt }
      else st) = st := by
      rw [h1]
      rfl
    have htail : adjust_stages_for_retry cfg sts attempt = sts := ih h2
    simp only [adjust_stages_for_retry, List.map_cons, hfix]
    rw [show List.map (fun st2 =>
        if st2.request.image.isSome then
          { st2 with request := adjust_request_for_retry cfg st2.request attempt }
        else st2) sts = adjust_stages_for_retry cfg sts attempt from rfl]
    rw [htail]

lemma run_go_chain_obf_loop (cfg : Config) (transport : Nat → ReqOrChain → CallOutcome)
    (rid : String) (stages : List Stage)
    (results : DecodedResults) (ce : ClassifierParameters)
    (h : ∀ a r, transport a r = CallOutcome.ok results)
    (hobf : results.obfuscation? = some ce)
    (hretry : cfg.retry_obfuscation = true)
    (hstages : ∀ st ∈ stages, st.request.image = none) :
    ∀ n a, a + n = cfg.max_retries →
      run_request_go cfg transport (List.range' a (n + 1)) (ReqOrChain.chain rid stages) =
        ⟨Except.error (RunError.classifier ce), [],
         List.replicate (n + 1) (ReqOrChain.chain rid stages)⟩ := by
  intro n
  induction n with
  | zero =>
    intro a ha
    simp only [Nat.add_zero] at ha
    rw [List.range'_one]
    simpa using run_go_obf_terminal cfg transport a [] _ results ce (h a _) hobf (Or.inl ha)
  | succ k ih =>
    intro a ha
    have hnterm : ¬(a = cfg.max_retries ∨ cfg.retry_obfuscation = false) := by
      simp [hretry]
      omega
    rw [List.range'_succ]
    rw [run_go_obf_chain_step cfg transport a (List.range' (a + 1) (k + 1)) rid stages
      results ce (h a _) hobf hnterm]
    rw [chain_no_image_stages_fixed cfg stages a hstages]
    rw [ih (a + 1) (by omega)]
    simp [List.replicate_succ]

/-- C4 (amended): with retry-on-obfuscation enabled, an obfuscation
result on a single (non-chain) request carrying no image parameters
raises the classifier-rejection failure with the classification result
immediately on its first occurrence — one transport call, no sleep, no
further loop iteration.  A `ChainRequest` none of whose stages carry
image parameters, however, is not re-raised immediately: the loop
resubmits it unchanged (no mutation) on every attempt up to the ceiling
and raises the classifier failure only on the final attempt. -/
theorem obfuscation_no_image_behavior (cfg : Config)
    (transport : Nat → ReqOrChain → CallOutcome) :
    (∀ r results ce,
      r.image = none →
      transport 0 (ReqOrChain.single r) = CallOutcome.ok results →
      results.obfuscation? = some ce →
      run_request cfg transport (ReqOrChain.single r) =
        ⟨Except.error (RunError.classifier ce), [], [ReqOrChain.single r]⟩) ∧
    (∀ rid stages results ce,
      (∀ a r, transport a r = CallOutcome.ok results) →
      results.obfuscation? = some ce →
      cfg.retry_obfuscation = true →
      (∀ st ∈ stages, st.request.image = none) →
      run_request cfg transport (ReqOrChain.chain rid stages) =
        ⟨Except.error (RunError.classifier ce), [],
         List.replicate (cfg.max_retries + 1) (ReqOrChain.chain rid stages)⟩) := by
  constructor
  · intro r results ce himg hcall hobf
    rw [run_request, List.range_succ_eq_map]
    exact run_go_obf_single_no_image cfg transport 0 _ r results ce hcall hobf himg
  · intro rid stages results ce h hobf hretry hstages
    rw [run_request]
    simp only [List.range_eq_range']
    exact run_go_chain_obf_loop cfg transport rid stages results ce h hobf hretry hstages
      cfg.max_retries 0 (by omega)

def obfCe : ClassifierParameters :=
  { realized_action := ClassifierAction.obfuscate, exceeds := ["nudity"] }

def obfResults : DecodedResults := { classifications := [obfCe], artifacts := [] }

def obfTransport : Nat → ReqOrChain → CallOutcome := fun _ _ => CallOutcome.ok obfResults

def retryCfg : Config :=
  { max_retries := 2, retry_delay := 1, retry_obfuscation := true, retry_schedule_offset := 1/10 }

def noImageRequest : GenRequest :=
  { engine_id := "interpolation-server-v1", prompt := [], image := none }

def noImageStages : List Stage :=
  [{ id := "0", request := { engine_id := "transform-server-v1", prompt := [], image := none } }]

/-- C4 counterexample: with retry-on-obfuscation enabled, an obfuscation
result on a `ChainRequest` whose only stage has no image parameters does
not raise on the first occurrence — the loop runs three transport calls
(max_retries = 2) with the request unchanged before raising. -/
theorem obfuscation_chain_counterexample :
    (run_request retryCfg obfTransport (ReqOrChain.chain "xform_chain" noImageStages)).calls.length = 3 ∧
    (run_request retryCfg obfTransport (ReqOrChain.chain "xform_chain" noImageStages)).calls =
      List.replicate 3 (ReqOrChain.chain "xform_chain" noImageStages) ∧
    (run_request retryCfg obfTransport (ReqOrChain.chain "xform_chain" noImageStages)).outcome =
      Except.error (RunError.classifier obfCe) := by
  decide

/-- Witness for `obfuscation_no_image_behavior`: both the single-request
and the chain branch at a concrete obfuscating transport. -/
theorem obfuscation_no_image_behavior_witness :
    noImageRequest.image = none ∧
    run_request retryCfg obfTransport (ReqOrChain.single noImageRequest) =
      ⟨Except.error (RunError.classifier obfCe), [], [ReqOrChain.single noImageRequest]⟩ ∧
    run_request retryCfg obfTransport (ReqOrChain.chain "c" noImageStages) =
      ⟨Except.error (RunError.classifier obfCe), [],
       List.replicate (retryCfg.max_retries + 1) (ReqOrChain.chain "c" noImageStages)⟩ :=
  ⟨rfl,
   (obfuscation_no_image_behavior retryCfg obfTransport).1 noImageRequest obfResults obfCe
     rfl rfl rfl,
   (obfuscation_no_image_behavior retryCfg obfTransport).2 "c" noImageStages obfResults obfCe
     (fun _ _ => rfl) rfl rfl (by decide)⟩

/-! ## C3: shape of the obfuscation-retry mutation -/

lemma adjust_zero (cfg : Config) (r : GenRequest) (img : ImageParameters)
    (h : r.image = some img) :
    adjust_request_for_retry cfg r 0 =
      { r with image := some ({ img with seed := img.seed.map (fun s => s + 1) }) } := by
  simp [adjust_request_for_retry, h]

lemma adjust_pos_no_schedule (cfg : Config) (r : GenRequest) (img : ImageParameters)
    (attempt : Nat) (h : r.image = some img) (hpos : 0 < attempt)
    (hshape : img.parameters = [] ∨
      ∃ p0 rest2, img.parameters = p0 :: rest2 ∧
        (p0.schedule = none ∨ ∃ sch, p0.schedule = some sch ∧ sch.start = none)) :
    adjust_request_for_retry cfg r attempt =
      { r with image := some ({ img with seed := img.seed.map (fun s => s + 1) }) } := by
  rcases hshape with hp | ⟨p0, rest2, hp, hsch | ⟨sch, hsch, hst⟩⟩
  · simp [adjust_request_for_retry, h, hpos, hp]
  · simp [adjust_request_for_retry, h, hpos, hp, hsch]
  · simp [adjust_request_for_retry, h, hpos, hp, hsch, hst]

lemma adjust_pos_schedule (cfg : Config) (r : GenRequest) (img : ImageParameters)
    (attempt : Nat) (p0 : StepParameter) (rest2 : List StepParameter)
    (sch : ScheduleParameters) (st : ℚ)
    (h : r.image = some img) (hpos : 0 < attempt)
    (hp : img.parameters = p0 :: rest2)
    (hsch : p0.schedule = some sch) (hst : sch.start = some st) :
    adjust_request_for_retry cfg r attempt =
      { r with image := some ({ img with
          seed := img.seed.map (fun s => s + 1),
          parameters :=
            ({ p0 with schedule := some ({ start := some (max 0 (min 1 (st + cfg.retry_schedule_offset))) }) }) :: rest2 }) } := by
  simp [adjust_request_for_retry, h, hpos, hp, hsch, hst]

/-- C3: an obfuscation-triggered adjustment increments every seed by one;
on adjustments after the first (`attempt > 0`) a present schedule-start
value in the first step parameter becomes
`clamp(start + retry_schedule_offset, 0, 1)`; every other field of the
request is untouched.  For a `ChainRequest`, every stage whose embedded
request carries image parameters receives exactly this adjustment
(stages without image parameters are untouched, stage ids preserved). -/
theorem obfuscation_mutation_shape (cfg : Config) (attempt : Nat)
    (r : GenRequest) (img : ImageParameters) (h : r.image = some img) :
    (∃ img2,
      (adjust_request_for_retry cfg r attempt).engine_id = r.engine_id ∧
      (adjust_request_for_retry cfg r attempt).prompt = r.prompt ∧
      (adjust_request_for_retry cfg r attempt).image = some img2 ∧
      img2.seed = img.seed.map (fun s => s + 1) ∧
      img2.height = img.height ∧
      img2.width = img.width ∧
      img2.steps = img.steps ∧
      img2.samples = img.samples ∧
      (attempt = 0 → img2.parameters = img.parameters) ∧
      (img.parameters = [] → img2.parameters = []) ∧
      (∀ p0 rest2, img.parameters = p0 :: rest2 →
        ∃ p02, img2.parameters = p02 :: rest2 ∧
          p02.scaled_step = p0.scaled_step ∧
          p02.sampler = p0.sampler ∧
          (p0.schedule = none → p02.schedule = p0.schedule) ∧
          (∀ sch, p0.schedule = some sch → sch.start = none → p02.schedule = p0.schedule) ∧
          (∀ sch st, 0 < attempt → p0.schedule = some sch → sch.start = some st →
            p02.schedule =
              some ({ start := some (max 0 (min 1 (st + cfg.retry_schedule_offset))) })))) ∧
    (∀ stages i st2, stages.get? i = some st2 →
      (st2.request.image = none →
        (adjust_stages_for_retry cfg stages attempt).get? i = some st2) ∧
      (st2.request.image.isSome = true →
        (adjust_stages_for_retry cfg stages attempt).get? i =
          some { id := st2.id, request := adjust_request_for_retry cfg st2.request attempt })) := by
  constructor
  · cases attempt with
    | zero =>
      rw [adjust_zero cfg r img h]
      refine ⟨{ img with seed := img.seed.map (fun s => s + 1) },
        rfl, rfl, rfl, rfl, rfl, rfl, rfl, rfl, fun _ => rfl, fun hp => by simp [hp],
        fun p0 rest2 hp => ⟨p0, by simp [hp], rfl, rfl, fun _ => rfl,
          fun sch hs hn => rfl, fun sch st hpos _ _ => absurd hpos (Nat.lt_irrefl 0)⟩⟩
    | succ n =>
      have hpos : 0 < n + 1 := Nat.succ_pos n
      cases hp : img.parameters with
      | nil =>
        rw [adjust_pos_no_schedule cfg r img (n + 1) h hpos (Or.inl hp)]
        exact ⟨{ img with seed := img.seed.map (fun s => s + 1) },
          rfl, rfl, rfl, rfl, rfl, rfl, rfl, rfl, fun h0 => by omega, fun _ => by simp [hp],
          fun p0 rest2 hcon => absurd hcon (by simp)⟩
      | cons p0 rest2 =>
        cases hsch : p0.schedule with
        | none =>
          rw [adjust_pos_no_schedule cfg r img (n + 1) h hpos
            (Or.inr ⟨p0, rest2, hp, Or.inl hsch⟩)]
          refine ⟨{ img with seed := img.seed.map (fun s => s + 1) },
            rfl, rfl, rfl, rfl, rfl, rfl, rfl, rfl, fun h0 => by omega,
            fun hnil => absurd hnil (by simp),
            fun q0 qrest hq => ?_⟩
          injection hq with hq1 hq2
          subst hq1
          subst hq2
          exact ⟨p0, by simp [hp], rfl, rfl, fun _ => rfl, fun sch hs _ => rfl,
            fun sch st _ hs _ => by rw [hsch] at hs; cases hs⟩
        | some sch =>
          cases hst : sch.start with
          | none =>
            rw [adjust_pos_no_schedule cfg r img (n + 1) h hpos
              (Or.inr ⟨p0, rest2, hp, Or.inr ⟨sch, hsch, hst⟩⟩)]
            refine ⟨{ img with seed := img.seed.map (fun s => s + 1) },
              rfl, rfl, rfl, rfl, rfl, rfl, rfl, rfl, fun h0 => by omega,
              fun hnil => absurd hnil (by simp), fun q0 qrest hq => ?_⟩
            injection hq with hq1 hq2
            subst hq1
            subst hq2
            refine ⟨p0, by simp [hp], rfl, rfl, fun _ => rfl, fun sch2 hs _ => rfl,
              fun sch2 st2 _ hs hs2 => ?_⟩
            rw [hsch] at hs
            injection hs with hseq
            rw [← hseq] at hs2
            rw [hst] at hs2
            cases hs2
          | some st =>
            rw [adjust_pos_schedule cfg r img (n + 1) p0 rest2 sch st h hpos hp hsch hst]
            refine ⟨_, rfl, rfl, rfl, rfl, rfl, rfl, rfl, rfl, fun h0 => by omega,
              fun hnil => absurd hnil (by simp), fun q0 qrest hq => ?_⟩
            injection hq with hq1 hq2
            subst hq1
            subst hq2
            refine ⟨_, rfl, rfl, rfl, ?_, ?_, ?_⟩
            · intro hs
              rw [hsch] at hs
              cases hs
            · intro sch2 hs hs2
              rw [hsch] at hs
              injection hs with hseq
              rw [← hseq] at hs2
              rw [hst] at hs2
              cases hs2
            · intro sch2 st2 hpos2 hs hs2
              rw [hsch] at hs
              injection hs with hseq
              rw [← hseq] at hs2
              rw [hst] at hs2
              injection hs2 with hsteq
              rw [hsteq]
  · intro stages i st2 hst
    constructor
    · intro hnone
      simp only [adjust_stages_for_retry, List.get?_map, hst, Option.map_some']
      simp [hnone]
    · intro hsome
      simp only [adjust_stages_for_retry, List.get?_map, hst, Option.map_some']
      rw [if_pos hsome]

def c3Step : StepParameter :=
  { scaled_step := 0
    sampler := { cfg_scale := 7, init_noise_scale := 1 }
    schedule := some ({ start := some (95/100) }) }

def c3Img : ImageParameters :=
  { height := 512, width := 512, seed := [3, 7], steps := 30, samples := 1
    parameters := [c3Step] }

def c3Request : GenRequest :=
  { engine_id := "stable-diffusion-v1-5", prompt := [], image := some c3Img }

/-- Witness for `obfuscation_mutation_shape` at a concrete request with
two seeds and a schedule start of 0.95 on the second retry. -/
theorem obfuscation_mutation_shape_witness :
    c3Request.image = some c3Img ∧
    (∃ img2, (adjust_request_for_retry retryCfg c3Request 1).image = some img2 ∧
      img2.seed = c3Img.seed.map (fun s => s + 1)) :=
  ⟨rfl, by
    obtain ⟨img2, _, _, h3, h4, _⟩ :=
      (obfuscation_mutation_shape retryCfg 1 c3Request c3Img rfl).1
    exact ⟨img2, h3, h4⟩⟩

/-! ## Storage model: metadata index, backends, Project aggregate -/

/-- The asset-id derivation used by `Project.put_image_asset`,
`Project.put_video_asset` and `Project.save_settings`:
`rsplit_res = result.rsplit('/', 1)` followed by
`rsplit_res[1] if len(rsplit_res) > 1 else rsplit_res[0]` — the
substring after the last '/' when one is present, else the whole text. -/
def derive_asset_id (s : String) : String :=
  String.mk (((s.data.reverse).takeWhile (fun c => !(c == '/'))).reverse)

/-- Python dict read `m[k]` (as an option): first binding of the key in
insertion order. -/
def dictGet {α β : Type} [DecidableEq α] (m : List (α × β)) (k : α) : Option β :=
  match m with
  | [] => none
  | p :: t => if p.1 = k then some p.2 else dictGet t k

/-- Python `k in m`. -/
def dictHasKey {α β : Type} [DecidableEq α] (m : List (α × β)) (k : α) : Bool :=
  (dictGet m k).isSome

/-- Python dict assignment `m[k] = v`: replace in place when the key is
present, else append (insertion order preserved). -/
def dictSet {α β : Type} [DecidableEq α] (m : List (α × β)) (k : α) (v : β) : List (α × β) :=
  if dictHasKey m k then
    m.map (fun p => if p.1 = k then (k, v) else p)
  else m ++ [(k, v)]

/-- Python dict `m.pop(k, None)`: drop the key if present. -/
def dictPop {α β : Type} [DecidableEq α] (m : List (α × β)) (k : α) : List (α × β) :=
  m.filter (fun p => decide (p.1 ≠ k))

/-- A value stored under a project in `Project._metadata_index`: either a
per-asset metadata dict `{mime_type, filename?}` or, under a
`project_key` such as `"project_file_id"`, a bare asset id.  Keys are
`Option String` because `add_asset_metadata` can receive `asset_id =
None` when no primary backend set one. -/
inductive IndexEntry where
  | meta (mime_type : String) (filename : Option String)
  | ref (asset_id : Option String)
deriving DecidableEq, Repr

abbrev ProjEntry := List (Option String × IndexEntry)

abbrev MetadataIndex := List (String × ProjEntry)

/-- The process-wide metadata index (`Project._metadata_index`) together
with the persisted `metadata_index.json` contents. -/
structure MetaState where
  mem : MetadataIndex
  disk : MetadataIndex
deriving DecidableEq, Repr

/-- `Project.save_metadata_index`: rewrite the JSON file in full from the
in-memory index. -/
def save_metadata_index (st : MetaState) : MetaState := { st with disk := st.mem }

/-- `Project.add_asset_metadata`: ensure the project sub-dict exists,
store `{mime_type, filename?}` under the asset id, optionally store the
asset id under `project_key`, then save the index to disk. -/
def add_asset_metadata (st : MetaState) (project_id : String) (asset_id : Option String)
    (mime_type : String) (filename : Option String) (project_key : Option String) : MetaState :=
  let idx0 := st.mem
  let idx1 := if dictHasKey idx0 project_id then idx0 else dictSet idx0 project_id []
  let proj0 := (dictGet idx1 project_id).getD []
  let proj1 := dictSet proj0 asset_id (IndexEntry.meta mime_type filename)
  let proj2 := match project_key with
    | some k => dictSet proj1 (some k) (IndexEntry.ref asset_id)
    | none => proj1
  save_metadata_index { st with mem := dictSet idx1 project_id proj2 }

/-- `Project.delete_project_metadata`: pop the project's entry from the
in-memory index; the source does not call `save_metadata_index` here, so
the persisted file is untouched. -/
def delete_project_metadata (st : MetaState) (project_id : String) : MetaState :=
  { st with mem := dictPop st.mem project_id }

/-- A registered storage backend as seen by the `Project` aggregate: the
`primary` / `primary_fs` flags and the observable behavior of its write
and read methods (argument-to-result maps; `Except.error` models a
raised exception). -/
structure Backend where
  primary : Bool
  primary_fs : Bool
  putImage : Option String → Except String String
  putVideo : Option String → Except String String
  getImage : String → Except String String
  getVideo : String → Except String String
  getSettings : IndexEntry → Except String String

/-- One backend write call observed during a `Project` put: which backend
(by registration index) and the `asset_id` argument it received. -/
structure PutCall where
  backend : Nat
  asset_id_arg : Option String
deriving DecidableEq, Repr

/-- The loop body of `Project.put_image_asset`: call each backend in
registration order with the current `asset_id`; after a primary backend
returns, derive the canonical asset id and append it to `results`; after
a `primary_fs` backend returns, remember its result as `filename`.  A
raised exception aborts the loop. -/
def put_image_go (backends : List Backend) (i : Nat) (asset_id filename : Option String)
    (results : List String) (calls : List PutCall) :
    Except String (List String × Option String × Option String) × List PutCall :=
  match backends with
  | [] => (Except.ok (results, asset_id, filename), calls)
  | b :: bs =>
    match b.putImage asset_id with
    | Except.error e => (Except.error e, calls ++ [⟨i, asset_id⟩])
    | Except.ok result =>
      let aid2 := if b.primary then some (derive_asset_id result) else asset_id
      let results2 := if b.primary then results ++ [derive_asset_id result] else results
      let filename2 := if b.primary_fs then some result else filename
      put_image_go bs (i + 1) aid2 filename2 results2 (calls ++ [⟨i, asset_id⟩])

/-- `Project.put_image_asset`: run the backend loop, then (only on
success of every backend write) record the asset in the metadata index
with mime type `"image/png"` and save the index. -/
def project_put_image_asset (backends : List Backend) (st : MetaState) (project_id : String) :
    Except String (List String) × MetaState × List PutCall :=
  match put_image_go backends 0 none none [] [] with
  | (Except.error e, calls) => (Except.error e, st, calls)
  | (Except.ok (results, asset_id, filename), calls) =>
    (Except.ok results, add_asset_metadata st project_id asset_id "image/png" filename none, calls)

/-- The loop body of `Project.put_video_asset` (same shape as the image
loop, calling `put_video_asset` on each backend). -/
def put_video_go (backends : List Backend) (i : Nat) (asset_id filename : Option String)
    (results : List String) (calls : List PutCall) :
    Except String (List String × Option String × Option String) × List PutCall :=
  match backends with
  | [] => (Except.ok (results, asset_id, filename), calls)
  | b :: bs =>
    match b.putVideo asset_id with
    | Except.error e => (Except.error e, calls ++ [⟨i, asset_id⟩])
    | Except.ok result =>
      let aid2 := if b.primary then some (derive_asset_id result) else asset_id
      let results2 := if b.primary then results ++ [derive_asset_id result] else results
      let filename2 := if b.primary_fs then some result else filename
      put_video_go bs (i + 1) aid2 filename2 results2 (calls ++ [⟨i, asset_id⟩])

/-- `Project.put_video_asset`: backend loop, then metadata entry with
mime type `"video/mp4"`. -/
def project_put_video_asset (backends : List Backend) (st : MetaState) (project_id : String) :
    Except String (List String) × MetaState × List PutCall :=
  match put_video_go backends 0 none none [] [] with
  | (Except.error e, calls) => (Except.error e, st, calls)
  | (Except.ok (results, asset_id, filename), calls) =>
    (Except.ok results, add_asset_metadata st project_id asset_id "video/mp4" filename none, calls)

/-- The shared loop of `Project.get_image_asset` / `get_video_asset`:
scan the registered backends in order, invoke the read on the first
backend flagged primary and return its result; raise when none is
primary.  The second component lists the indices of backends actually
invoked. -/
def project_read_go (f : Backend → Except String String) (errmsg : String) :
    List Backend → Nat → Except String String × List Nat
  | [], _ => (Except.error errmsg, [])
  | b :: bs, i =>
    if b.primary then (f b, [i]) else project_read_go f errmsg bs (i + 1)

/-- `Project.get_image_asset`. -/
def project_get_image_asset (backends : List Backend) (asset_id : String) :
    Except String String × List Nat :=
  project_read_go (fun b => b.getImage asset_id)
    ("Failed to load image asset " ++ asset_id) backends 0

/-- `Project.get_video_asset`. -/
def project_get_video_asset (backends : List Backend) (asset_id : String) :
    Except String String × List Nat :=
  project_read_go (fun b => b.getVideo asset_id)
    ("Failed to load video asset " ++ asset_id) backends 0

/-- The index expression `self._metadata_index[self.id]["project_file_id"]`
in `Project.get_settings`; a missing key raises (KeyError) before any
backend is invoked. -/
def metadata_lookup (mem : MetadataIndex) (project_id : String) (key : Option String) :
    Except String IndexEntry :=
  match dictGet mem project_id with
  | none => Except.error ("KeyError: " ++ project_id)
  | some proj =>
    match dictGet proj key with
    | none => Except.error "KeyError: project_file_id"
    | some v => Except.ok v

/-- The loop of `Project.get_settings`: find the first primary backend;
evaluate the metadata-index lookup (which can raise first), then invoke
`get_project_settings` on that backend only. -/
def project_get_settings_go (mem : MetadataIndex) (project_id : String) :
    List Backend → Nat → Except String String × List Nat
  | [], _ => (Except.error ("Failed to load project file for " ++ project_id), [])
  | b :: bs, i =>
    if b.primary then
      match metadata_lookup mem project_id (some "project_file_id") with
      | Except.error e => (Except.error e, [])
      | Except.ok v => (b.getSettings v, [i])
    else project_get_settings_go mem project_id bs (i + 1)

/-- `Project.get_settings`. -/
def project_get_settings (backends : List Backend) (mem : MetadataIndex)
    (project_id : String) : Except String String × List Nat :=
  project_get_settings_go mem project_id backends 0

/-- `Project.delete`: `delete_project` on every registered backend in
order (these touch backend state only, not the metadata index), then
`Project.delete_project_metadata`.  The second component records the
indices of the backends whose delete was invoked. -/
def project_delete (backends : List Backend) (st : MetaState) (project_id : String) :
    MetaState × List Nat :=
  (delete_project_metadata st project_id, List.range backends.length)

/-! ## LocalFileBackend asset writes -/

/-- The flags and configured projects root of a `LocalFileBackend`. -/
structure LocalFileBackend where
  primary : Bool
  primary_fs : Bool
  projects_root : String

/-- The local filesystem as a path-to-contents map. -/
abbrev FileSystem := List (String × String)

/-- `LocalFileBackend.get_path_for_asset`:
`os.path.join(projects_root, project_id, filename)`. -/
def get_path_for_asset (projects_root project_id filename : String) : String :=
  projects_root ++ "/" ++ project_id ++ "/" ++ filename

/-- `LocalFileBackend.put_image_asset`: with an `asset_id` it is used as
the filename; with none, a non-primary backend raises `ValueError`
without writing, while a primary backend mints a fresh uuid (`fresh`),
writes `<path>.png` and returns the uuid as the filename stem. -/
def LocalFileBackend.put_image_asset (b : LocalFileBackend) (fs : FileSystem)
    (project_id png : String) (asset_id : Option String) (fresh : String) :
    Except String String × FileSystem :=
  match asset_id with
  | some a =>
    (Except.ok a, dictSet fs (get_path_for_asset b.projects_root project_id a ++ ".png") png)
  | none =>
    if b.primary = false then
      (Except.error "If asset_id is None, then LocalFileBackend must be primary.", fs)
    else
      (Except.ok fresh,
       dictSet fs (get_path_for_asset b.projects_root project_id fresh ++ ".png") png)

/-- The `video_path.endswith(".mp4")` test, on the character lists. -/
def strEndsWith (s suffix : String) : Bool :=
  suffix.data.isSuffixOf s.data

/-- `LocalFileBackend.put_video_asset`: validate that `video_path` is an
existing `.mp4` file, then as for images: a missing `asset_id` requires
the primary flag, a fresh uuid otherwise names the copied file. -/
def LocalFileBackend.put_video_asset (b : LocalFileBackend) (fs : FileSystem)
    (project_id video_path : String) (asset_id : Option String) (fresh : String) :
    Except String String × FileSystem :=
  match dictGet fs video_path with
  | none => (Except.error "Invalid video file path. Must be an existing .mp4 file.", fs)
  | some content =>
    if strEndsWith video_path ".mp4" = false then
      (Except.error "Invalid video file path. Must be an existing .mp4 file.", fs)
    else
      match asset_id with
      | some a =>
        (Except.ok a, dictSet fs (get_path_for_asset b.projects_root project_id a) content)
      | none =>
        if b.primary = false then
          (Except.error "If name is None, then LocalFileBackend must be primary.", fs)
        else
          (Except.ok fresh,
           dictSet fs (get_path_for_asset b.projects_root project_id fresh) content)

/-! ## Dictionary and asset-id derivation lemmas -/

lemma takeWhile_all {α : Type} (p : α → Bool) (l : List α) (h : ∀ a ∈ l, p a = true) :
    l.takeWhile p = l := by
  induction l with
  | nil => rfl
  | cons a t ih =>
    rw [List.takeWhile_cons, h a (by simp), ih (fun b hb => h b (by simp [hb]))]
    simp

lemma takeWhile_append_all {α : Type} (p : α → Bool) (l1 l2 : List α)
    (h : ∀ a ∈ l1, p a = true) :
    (l1 ++ l2).takeWhile p = l1 ++ l2.takeWhile p := by
  induction l1 with
  | nil => simp
  | cons a t ih =>
    rw [List.cons_append, List.takeWhile_cons, h a (by simp),
      ih (fun b hb => h b (by simp [hb]))]
    simp

lemma derive_asset_id_no_slash (v : String) (h : '/' ∉ v.data) :
    derive_asset_id v = v := by
  obtain ⟨l⟩ := v
  unfold derive_asset_id
  rw [takeWhile_all _ _ ?ha, List.reverse_reverse]
  case ha =>
    intro c hc
    rw [List.mem_reverse] at hc
    have hne : ¬(c = '/') := fun he => h (he ▸ hc)
    simp [hne]

lemma derive_asset_id_append (u v : String) (h : '/' ∉ v.data) :
    derive_asset_id (u ++ "/" ++ v) = v := by
  obtain ⟨lu⟩ := u
  obtain ⟨lv⟩ := v
  unfold derive_asset_id
  have hdata : (String.mk lu ++ "/" ++ String.mk lv).data = lu ++ ('/' :: lv) := by
    simp [String.data_append]
  rw [hdata, List.reverse_append, List.reverse_cons, List.append_assoc]
  rw [takeWhile_append_all _ _ _ ?hall]
  case hall =>
    intro c hc
    rw [List.mem_reverse] at hc
    have hne : ¬(c = '/') := fun he => h (he ▸ hc)
    simp [hne]
  simp [List.takeWhile_cons]

lemma dictGet_set_map {α β : Type} [DecidableEq α] (m : List (α × β)) (k : α) (v : β)
    (h : dictHasKey m k = true) :
    dictGet (m.map (fun p => if p.1 = k then (k, v) else p)) k = some v := by
  induction m with
  | nil => simp [dictHasKey, dictGet] at h
  | cons p t ih =>
    by_cases hpk : p.1 = k
    · simp [dictGet, hpk]
    · have h2 : dictHasKey t k = true := by
        simpa [dictHasKey, dictGet, hpk] using h
      simp [dictGet, hpk, ih h2]

lemma dictGet_append_single {α β : Type} [DecidableEq α] (m : List (α × β)) (k : α) (v : β)
    (h : dictHasKey m k = false) :
    dictGet (m ++ [(k, v)]) k = some v := by
  induction m with
  | nil => simp [dictGet]
  | cons p t ih =>
    have hpk : ¬(p.1 = k) := by
      intro he
      simp [dictHasKey, dictGet, he] at h
    have h2 : dictHasKey t k = false := by
      simpa [dictHasKey, dictGet, hpk] using h
    simp [dictGet, hpk, ih h2]

lemma dictGet_dictSet {α β : Type} [DecidableEq α] (m : List (α × β)) (k : α) (v : β) :
    dictGet (dictSet m k v) k = some v := by
  unfold dictSet
  by_cases h : dictHasKey m k = true
  · rw [if_pos h]
    exact dictGet_set_map m k v h
  · rw [if_neg h]
    exact dictGet_append_single m k v (by simpa using h)

/-! ## C5: identifier propagation through Project.put_image_asset -/

/-- C5: on a configuration with the primary backend first and a
`primary_fs` mirror second (the `init_backends` shape), a successful
`Project.put_image_asset` leaves exactly one metadata entry under the
project id, keyed by the asset id derived from the primary's returned
text (substring after the last '/', else the whole text), with
`filename` equal to the `primary_fs` backend's returned filename; the
mirror's write receives the primary's already-derived id as its
`asset_id` argument. -/
theorem identifier_propagation (P M : Backend) (st : MetaState) (pid tP tM : String)
    (hP : P.primary = true) (hPf : P.primary_fs = false)
    (hM : M.primary = false) (hMf : M.primary_fs = true)
    (hputP : P.putImage none = Except.ok tP)
    (hputM : M.putImage (some (derive_asset_id tP)) = Except.ok tM)
    (hfresh : dictGet st.mem pid = none) :
    (project_put_image_asset [P, M] st pid).1 = Except.ok [derive_asset_id tP] ∧
    dictGet (project_put_image_asset [P, M] st pid).2.1.mem pid =
      some [(some (derive_asset_id tP), IndexEntry.meta "image/png" (some tM))] ∧
    (project_put_image_asset [P, M] st pid).2.2 =
      [⟨0, none⟩, ⟨1, some (derive_asset_id tP)⟩] ∧
    (∀ v : String, '/' ∉ v.data → derive_asset_id v = v) ∧
    (∀ u v : String, '/' ∉ v.data → derive_asset_id (u ++ "/" ++ v) = v) := by
  have hrun : put_image_go [P, M] 0 none none [] [] =
      (Except.ok ([derive_asset_id tP], some (derive_asset_id tP), some tM),
       [⟨0, none⟩, ⟨1, some (derive_asset_id tP)⟩]) := by
    simp [put_image_go, hputP, hputM, hP, hPf, hM, hMf]
  have hhk : dictHasKey st.mem pid = false := by
    simp [dictHasKey, hfresh]
  have hmem : add_asset_metadata st pid (some (derive_asset_id tP)) "image/png" (some tM) none =
      ⟨dictSet (dictSet st.mem pid []) pid
         [(some (derive_asset_id tP), IndexEntry.meta "image/png" (some tM))],
       dictSet (dictSet st.mem pid []) pid
         [(some (derive_asset_id tP), IndexEntry.meta "image/png" (some tM))]⟩ := by
    unfold add_asset_metadata save_metadata_index
    simp only [hhk, Bool.false_eq_true, if_false, dictGet_dictSet, Option.getD_some]
    simp [dictSet, dictHasKey, dictGet]
  have hout : project_put_image_asset [P, M] st pid =
      (Except.ok [derive_asset_id tP],
       ⟨dictSet (dictSet st.mem pid []) pid
          [(some (derive_asset_id tP), IndexEntry.meta "image/png" (some tM))],
        dictSet (dictSet st.mem pid []) pid
          [(some (derive_asset_id tP), IndexEntry.meta "image/png" (some tM))]⟩,
       [⟨0, none⟩, ⟨1, some (derive_asset_id tP)⟩]) := by
    unfold project_put_image_asset
    rw [hrun]
    dsimp only
    rw [hmem]
  rw [hout]
  exact ⟨rfl, dictGet_dictSet _ _ _, rfl,
    fun v hv => derive_asset_id_no_slash v hv,
    fun u v hv => derive_asset_id_append u v hv⟩

def c5P : Backend :=
  { primary := true, primary_fs := false
    putImage := fun _ => Except.ok "assets/img001"
    putVideo := fun _ => Except.ok "assets/vid001"
    getImage := fun _ => Except.ok "png-bytes"
    getVideo := fun _ => Except.ok "mp4-bytes"
    getSettings := fun _ => Except.ok "settings-json" }

def c5M : Backend :=
  { primary := false, primary_fs := true
    putImage := fun a => Except.ok (a.getD "fresh-uuid")
    putVideo := fun a => Except.ok (a.getD "fresh-uuid")
    getImage := fun _ => Except.error "mirror read"
    getVideo := fun _ => Except.error "mirror read"
    getSettings := fun _ => Except.error "mirror read" }

/-- Witness for `identifier_propagation`: primary returns
"assets/img001", mirror echoes the id it was handed. -/
theorem identifier_propagation_witness :
    c5P.putImage none = Except.ok "assets/img001" ∧
    (project_put_image_asset [c5P, c5M] ⟨[], []⟩ "proj-1").1 =
      Except.ok [derive_asset_id "assets/img001"] ∧
    dictGet (project_put_image_asset [c5P, c5M] ⟨[], []⟩ "proj-1").2.1.mem "proj-1" =
      some [(some (derive_asset_id "assets/img001"), IndexEntry.meta "image/png" (some "img001"))] ∧
    (project_put_image_asset [c5P, c5M] ⟨[], []⟩ "proj-1").2.2 =
      [⟨0, none⟩, ⟨1, some (derive_asset_id "assets/img001")⟩] := by
  have h := identifier_propagation c5P c5M ⟨[], []⟩ "proj-1" "assets/img001" "img001"
    rfl rfl rfl rfl rfl (by decide) rfl
  exact ⟨rfl, h.1, h.2.1, h.2.2.1⟩

/-! ## C6: mirror write failure after a successful primary write -/

/-- C6 (amended): when the mirror's write raises after the primary's
write succeeded, `Project.put_image_asset` propagates the failure (it is
not swallowed), makes no rollback call (the only backend calls are the
two writes, the mirror receiving the primary's derived id), and a
subsequent read through the primary backend succeeds; but the metadata
index is left unchanged — the exception propagates before
`add_asset_metadata` runs, so no entry for the new asset is recorded. -/
theorem partial_mirror_behavior (P M : Backend) (st : MetaState) (pid tP e img : String)
    (hP : P.primary = true) (hM : M.primary = false)
    (hputP : P.putImage none = Except.ok tP)
    (hputM : M.putImage (some (derive_asset_id tP)) = Except.error e)
    (hget : P.getImage (derive_asset_id tP) = Except.ok img) :
    (project_put_image_asset [P, M] st pid).1 = Except.error e ∧
    (project_put_image_asset [P, M] st pid).2.1 = st ∧
    (project_put_image_asset [P, M] st pid).2.2 =
      [⟨0, none⟩, ⟨1, some (derive_asset_id tP)⟩] ∧
    (project_get_image_asset [P, M] (derive_asset_id tP)).1 = Except.ok img := by
  have hrun : put_image_go [P, M] 0 none none [] [] =
      (Except.error e, [⟨0, none⟩, ⟨1, some (derive_asset_id tP)⟩]) := by
    simp [put_image_go, hputP, hputM, hP, hM]
  have hout : project_put_image_asset [P, M] st pid =
      (Except.error e, st, [⟨0, none⟩, ⟨1, some (derive_asset_id tP)⟩]) := by
    unfold project_put_image_asset
    rw [hrun]
  refine ⟨?_, ?_, ?_, ?_⟩
  · rw [hout]
  · rw [hout]
  · rw [hout]
  · simp [project_get_image_asset, project_read_go, hP, hget]

def c6M : Backend :=
  { primary := false, primary_fs := true
    putImage := fun _ => Except.error "disk full"
    putVideo := fun _ => Except.error "disk full"
    getImage := fun _ => Except.error "mirror read"
    getVideo := fun _ => Except.error "mirror read"
    getSettings := fun _ => Except.error "mirror read" }

/-- C6 counterexample: after the mirror write fails, the metadata index
does not reflect the primary's asset id — `add_asset_metadata` never ran,
so the index has no entry at all under the project id (here it is still
the empty initial index). -/
theorem partial_mirror_counterexample :
    (project_put_image_asset [c5P, c6M] ⟨[], []⟩ "proj-1").1 = Except.error "disk full" ∧
    dictGet (project_put_image_asset [c5P, c6M] ⟨[], []⟩ "proj-1").2.1.mem "proj-1" = none ∧
    (project_put_image_asset [c5P, c6M] ⟨[], []⟩ "proj-1").2.1 = (⟨[], []⟩ : MetaState) := by
  refine ⟨?_, ?_, ?_⟩ <;> rfl

/-- Witness for `partial_mirror_behavior` with a concrete failing
mirror. -/
theorem partial_mirror_behavior_witness :
    (project_put_image_asset [c5P, c6M] ⟨[], []⟩ "proj-2").1 = Except.error "disk full" ∧
    (project_put_image_asset [c5P, c6M] ⟨[], []⟩ "proj-2").2.1 = (⟨[], []⟩ : MetaState) ∧
    (project_get_image_asset [c5P, c6M] (derive_asset_id "assets/img001")).1 =
      Except.ok "png-bytes" := by
  have h := partial_mirror_behavior c5P c6M ⟨[], []⟩ "proj-2" "assets/img001" "disk full"
    "png-bytes" rfl rfl rfl rfl rfl
  exact ⟨h.1, h.2.1, h.2.2.2⟩

/-! ## C7: read exclusivity of the primary backend -/

lemma read_go_calls_primary (f : Backend → Except String String) (errmsg : String) :
    ∀ bs k, ∀ i ∈ (project_read_go f errmsg bs k).2,
      ∃ j b, i = k + j ∧ bs.get? j = some b ∧ b.primary = true := by
  intro bs
  induction bs with
  | nil =>
    intro k i hi
    simp [project_read_go] at hi
  | cons b bs2 ih =>
    intro k i hi
    by_cases hb : b.primary = true
    · simp only [project_read_go, if_pos hb, List.mem_singleton] at hi
      exact ⟨0, b, by omega, rfl, hb⟩
    · simp only [project_read_go, if_neg hb] at hi
      obtain ⟨j, b2, hij, hget, hp⟩ := ih (k + 1) i hi
      exact ⟨j + 1, b2, by omega, by simpa using hget, hp⟩

lemma read_go_first_primary (f : Backend → Except String String) (errmsg : String) :
    ∀ bs k j b, bs.get? j = some b → b.primary = true →
      (∀ j2 b2, j2 < j → bs.get? j2 = some b2 → b2.primary = false) →
      (project_read_go f errmsg bs k).1 = f b := by
  intro bs
  induction bs with
  | nil =>
    intro k j b hget
    simp at hget
  | cons b0 bs2 ih =>
    intro k j b hget hp hmin
    by_cases hb0 : b0.primary = true
    · cases j with
      | zero =>
        simp only [List.get?_cons_zero, Option.some_inj] at hget
        subst hget
        simp [project_read_go, hb0]
      | succ j2 =>
        have hcon := hmin 0 b0 (Nat.succ_pos j2) rfl
        rw [hcon] at hb0
        cases hb0
    · cases j with
      | zero =>
        simp only [List.get?_cons_zero, Option.some_inj] at hget
        subst hget
        exact absurd hp hb0
      | succ j2 =>
        simp only [project_read_go, if_neg hb0]
        exact ih (k + 1) j2 b (by simpa using hget) hp
          (fun j3 b3 h3 hg3 => hmin (j3 + 1) b3 (by omega) (by simpa using hg3))

lemma settings_go_calls_primary (mem : MetadataIndex) (pid : String) :
    ∀ bs k, ∀ i ∈ (project_get_settings_go mem pid bs k).2,
      ∃ j b, i = k + j ∧ bs.get? j = some b ∧ b.primary = true := by
  intro bs
  induction bs with
  | nil =>
    intro k i hi
    simp [project_get_settings_go] at hi
  | cons b bs2 ih =>
    intro k i hi
    by_cases hb : b.primary = true
    · simp only [project_get_settings_go, if_pos hb] at hi
      cases hlk : metadata_lookup mem pid (some "project_file_id") with
      | error e =>
        rw [hlk] at hi
        simp at hi
      | ok v =>
        rw [hlk] at hi
        simp only [List.mem_singleton] at hi
        exact ⟨0, b, by omega, rfl, hb⟩
    · simp only [project_get_settings_go, if_neg hb] at hi
      obtain ⟨j, b2, hij, hget, hp⟩ := ih (k + 1) i hi
      exact ⟨j + 1, b2, by omega, by simpa using hget, hp⟩

lemma settings_go_first_primary (mem : MetadataIndex) (pid : String) :
    ∀ bs k j b, bs.get? j = some b → b.primary = true →
      (∀ j2 b2, j2 < j → bs.get? j2 = some b2 → b2.primary = false) →
      ∀ v, metadata_lookup mem pid (some "project_file_id") = Except.ok v →
        (project_get_settings_go mem pid bs k).1 = b.getSettings v := by
  intro bs
  induction bs with
  | nil =>
    intro k j b hget
    simp at hget
  | cons b0 bs2 ih =>
    intro k j b hget hp hmin v hv
    by_cases hb0 : b0.primary = true
    · cases j with
      | zero =>
        simp only [List.get?_cons_zero, Option.some_inj] at hget
        subst hget
        simp [project_get_settings_go, hb0, hv]
      | succ j2 =>
        have hcon := hmin 0 b0 (Nat.succ_pos j2) rfl
        rw [hcon] at hb0
        cases hb0
    · cases j with
      | zero =>
        simp only [List.get?_cons_zero, Option.some_inj] at hget
        subst hget
        exact absurd hp hb0
      | succ j2 =>
        simp only [project_get_settings_go, if_neg hb0]
        exact ih (k + 1) j2 b (by simpa using hget) hp
          (fun j3 b3 h3 hg3 => hmin (j3 + 1) b3 (by omega) (by simpa using hg3)) v hv

/-- C7: the Project read operations (`get_settings`, `get_image_asset`,
`get_video_asset`) invoke no backend except one flagged primary, and
return the first primary backend's result; mirrors are never invoked by
a read, however many backends are registered. -/
theorem read_exclusivity (backends : List Backend) (mem : MetadataIndex)
    (pid aid vid : String) :
    (∀ i ∈ (project_get_settings backends mem pid).2,
      ∃ b, backends.get? i = some b ∧ b.primary = true) ∧
    (∀ i ∈ (project_get_image_asset backends aid).2,
      ∃ b, backends.get? i = some b ∧ b.primary = true) ∧
    (∀ i ∈ (project_get_video_asset backends vid).2,
      ∃ b, backends.get? i = some b ∧ b.primary = true) ∧
    (∀ i b, backends.get? i = some b → b.primary = true →
      (∀ j b2, j < i → backends.get? j = some b2 → b2.primary = false) →
      (project_get_image_asset backends aid).1 = b.getImage aid ∧
      (project_get_video_asset backends vid).1 = b.getVideo vid ∧
      (∀ v, metadata_lookup mem pid (some "project_file_id") = Except.ok v →
        (project_get_settings backends mem pid).1 = b.getSettings v)) := by
  refine ⟨?_, ?_, ?_, ?_⟩
  · intro i hi
    obtain ⟨j, b, hij, hget, hp⟩ := settings_go_calls_primary mem pid backends 0 i hi
    exact ⟨b, by simpa [hij] using hget, hp⟩
  · intro i hi
    obtain ⟨j, b, hij, hget, hp⟩ :=
      read_go_calls_primary (fun b => b.getImage aid) ("Failed to load image asset " ++ aid)
        backends 0 i hi
    exact ⟨b, by simpa [hij] using hget, hp⟩
  · intro i hi
    obtain ⟨j, b, hij, hget, hp⟩ :=
      read_go_calls_primary (fun b => b.getVideo vid) ("Failed to load video asset " ++ vid)
        backends 0 i hi
    exact ⟨b, by simpa [hij] using hget, hp⟩
  · intro i b hget hp hmin
    refine ⟨?_, ?_, ?_⟩
    · exact read_go_first_primary (fun b => b.getImage aid)
        ("Failed to load image asset " ++ aid) backends 0 i b hget hp hmin
    · exact read_go_first_primary (fun b => b.getVideo vid)
        ("Failed to load video asset " ++ vid) backends 0 i b hget hp hmin
    · intro v hv
      exact settings_go_first_primary mem pid backends 0 i b hget hp hmin v hv

/-- Witness for `read_exclusivity`: a two-backend configuration with the
primary first; the reads return the primary's results and invoke only
backend 0. -/
theorem read_exclusivity_witness :
    (project_get_image_asset [c5P, c5M] "a1").1 = Except.ok "png-bytes" ∧
    (project_get_video_asset [c5P, c5M] "a1").1 = Except.ok "mp4-bytes" ∧
    (project_get_image_asset [c5P, c5M] "a1").2 = [0] := by
  have h := (read_exclusivity [c5P, c5M] [] "p" "a1" "a1").2.2.2 0 c5P rfl rfl
    (fun j b2 hj _ => absurd hj (Nat.not_lt_zero j))
  exact ⟨h.1, h.2.1, rfl⟩

/-! ## C8: LocalFileBackend writes with no supplied asset id -/

/-- C8: a local-filesystem asset write with `asset_id = None` mints the
fresh uuid and returns it as the filename stem when the backend is
primary (writing `<root>/<project>/<uuid>.png` for images, the
extension-less copy for videos), and raises a `ValueError` without
writing anything when the backend is not primary. -/
theorem local_backend_unassigned_id (b : LocalFileBackend) (fs : FileSystem)
    (pid png vpath vcontent fresh : String) :
    (b.primary = true →
      LocalFileBackend.put_image_asset b fs pid png none fresh =
        (Except.ok fresh,
         dictSet fs (get_path_for_asset b.projects_root pid fresh ++ ".png") png)) ∧
    (b.primary = false →
      LocalFileBackend.put_image_asset b fs pid png none fresh =
        (Except.error "If asset_id is None, then LocalFileBackend must be primary.", fs)) ∧
    (b.primary = true → dictGet fs vpath = some vcontent → strEndsWith vpath ".mp4" = true →
      LocalFileBackend.put_video_asset b fs pid vpath none fresh =
        (Except.ok fresh, dictSet fs (get_path_for_asset b.projects_root pid fresh) vcontent)) ∧
    (b.primary = false → dictGet fs vpath = some vcontent → strEndsWith vpath ".mp4" = true →
      LocalFileBackend.put_video_asset b fs pid vpath none fresh =
        (Except.error "If name is None, then LocalFileBackend must be primary.", fs)) := by
  refine ⟨?_, ?_, ?_, ?_⟩
  · intro hp
    simp [LocalFileBackend.put_image_asset, hp]
  · intro hp
    simp [LocalFileBackend.put_image_asset, hp]
  · intro hp hv hm
    simp [LocalFileBackend.put_video_asset, hv, hm, hp]
  · intro hp hv hm
    simp [LocalFileBackend.put_video_asset, hv, hm, hp]

def c8fs : FileSystem := [("clips/take1.mp4", "mp4-binary")]

def c8Primary : LocalFileBackend :=
  { primary := true, primary_fs := true, projects_root := "projects" }

def c8Mirror : LocalFileBackend :=
  { primary := false, primary_fs := true, projects_root := "projects" }

/-- Witness for `local_backend_unassigned_id` at a concrete filesystem
and uuid. -/
theorem local_backend_unassigned_id_witness :
    LocalFileBackend.put_image_asset c8Primary c8fs "p1" "png-bytes" none "uuid-1234" =
      (Except.ok "uuid-1234", dictSet c8fs "projects/p1/uuid-1234.png" "png-bytes") ∧
    LocalFileBackend.put_image_asset c8Mirror c8fs "p1" "png-bytes" none "uuid-1234" =
      (Except.error "If asset_id is None, then LocalFileBackend must be primary.", c8fs) ∧
    LocalFileBackend.put_video_asset c8Mirror c8fs "p1" "clips/take1.mp4" none "uuid-1234" =
      (Except.error "If name is None, then LocalFileBackend must be primary.", c8fs) := by
  have h1 := local_backend_unassigned_id c8Primary c8fs "p1" "png-bytes" "clips/take1.mp4"
    "mp4-binary" "uuid-1234"
  have h2 := local_backend_unassigned_id c8Mirror c8fs "p1" "png-bytes" "clips/take1.mp4"
    "mp4-binary" "uuid-1234"
  exact ⟨h1.1 rfl, h2.2.1 rfl, h2.2.2.2 rfl rfl (by decide)⟩

/-! ## C9: persistence of metadata-index mutations -/

def c9State : MetaState :=
  add_asset_metadata ⟨[], []⟩ "p1" (some "a1") "image/png" (some "a1.png") none

/-- C9 evidence: `add_asset_metadata` does persist (after it the on-disk
copy equals memory), but `Project.delete` — whose
`delete_project_metadata` pops the in-memory entry without calling
`save_metadata_index` — leaves the deleted project's entry in the
persisted document, so after `delete` the on-disk index differs from the
in-memory index and still contains the deleted project. -/
theorem delete_not_persisted :
    c9State.disk = c9State.mem ∧
    dictGet c9State.mem "p1" = some [(some "a1", IndexEntry.meta "image/png" (some "a1.png"))] ∧
    (project_delete [c5P, c5M] c9State "p1").1.mem = [] ∧
    dictGet (project_delete [c5P, c5M] c9State "p1").1.disk "p1" =
      some [(some "a1", IndexEntry.meta "image/png" (some "a1.png"))] ∧
    dictGet (project_delete [c5P, c5M] c9State "p1").1.mem "p1" = none := by
  exact ⟨rfl, rfl, rfl, rfl, rfl⟩
